import Mathlib

/-!
Verification of the lambda PDF-to-Excel conversion pipeline
(`src/lambda_function.py`).

The Python module is a thin orchestration layer:
`lambda_handler` parses an S3 event into records, filters each decoded key
by input-folder and `.pdf` suffix, and calls `process_pdf`, which downloads
the object, extracts tables (`extract_tables_from_pdf`, built on pdfplumber),
builds a workbook (`create_excel_from_tables`, built on openpyxl), and writes
the result back.

The embedding below keeps the source's structure and names.  External
services and libraries are modelled as follows:
* S3 (`boto3`) is an environment function: a read returns either the object
  bytes or an error; the result of a write attempt is likewise given by the
  environment.  Side effects are recorded in an explicit trace of `Effect`s.
* pdfplumber's page/table detection is an environment function from the raw
  bytes to a list of pages, each page being the list of raw tables
  (`page.extract_tables()`) the detector reports, where a raw cell is either
  absent (Python `None`) or a dynamically typed value.
* openpyxl's in-memory `Workbook` is modelled structurally as a list of
  `Sheet`s (title, written cell grid, per-column widths); the final binary
  serialization (`workbook.save`) is owned by the external library and out of
  scope, so the builder returns the in-memory workbook.
* `urllib.parse.unquote_plus` is stdlib: the `+`-to-space replacement and
  `%XX` escape handling are modelled directly (single-byte escapes; the
  multi-byte UTF-8 recombination of the stdlib is not exercised here).
* Python exceptions are values: `ClientError` (botocore) versus any other
  exception, each carrying its `str(e)` text.
-/

/-- A dynamically typed cell value delivered by the PDF table detector:
pdfplumber cells are strings, but the normalization step stringifies any
value, so numbers are representable too. -/
inductive PyVal where
  | pyStr : String → PyVal
  | pyInt : Int → PyVal
deriving Repr, DecidableEq

/-- Python `str(v)` on a detector cell value. -/
def PyVal.str : PyVal → String
  | .pyStr s => s
  | .pyInt n => toString n

/-- A raw detector cell; `none` models Python `None` (absent cell). -/
abbrev RawCell := Option PyVal

/-- A raw detected table, as returned inside `page.extract_tables()`:
rows of raw cells. -/
abbrev RawTable := List (List RawCell)

/-- One PDF page, abstracted as the list of tables the detector reports on
it (`page.extract_tables()`). -/
abbrev Page := List RawTable

/-- A normalized table: rows of string cells. -/
abbrev Table := List (List String)

/-- Raw object bytes (the PDF content fetched from storage). -/
abbrev Bytes := List Nat

/-- A Python exception as observed by the handler's `except` clauses:
`client` is botocore's `ClientError`, `other` any other exception; both
carry the interpolated `str(e)` text. -/
inductive PyErr where
  | client : String → PyErr
  | other : String → PyErr
deriving Repr, DecidableEq

/-- One sheet of the in-memory openpyxl workbook: its title, the grid of
written cell values (row-major, as written by `worksheet.cell`), and the
column widths set by the auto-adjust loop (index 0 is column A). -/
structure Sheet where
  title : String
  grid : List (List String)
  widths : List Nat
deriving Repr, DecidableEq

/-- An observable storage side effect of one invocation:
an `s3_client.get_object` call, or an `s3_client.put_object` call carrying
bucket, key, the workbook written as `Body` and the `ContentType`. -/
inductive Effect where
  | getObject : String → String → Effect
  | putObject : String → String → List Sheet → String → Effect
deriving Repr, DecidableEq

/-- The execution environment: the behaviour of external storage and of the
PDF parsing library during one invocation.  `getObject` yields the object
bytes or raises; `openPdf` models `pdfplumber.open` plus per-page
`extract_tables`, yielding the detector's raw output or raising; `putOutcome`
tells whether the write attempt at (bucket, key) raises. -/
structure Env where
  getObject : String → String → Except PyErr Bytes
  openPdf : Bytes → Except PyErr (List Page)
  putOutcome : String → String → Option PyErr

/-- The configuration read from environment variables at module load.
`BUCKET_NAME` (default `magnifact-pdf`) is defined in the source but never
used by the logic (the bucket comes from each record), so it is omitted. -/
structure Config where
  INPUT_FOLDER_NAME : String
  OUTPUT_FOLDER_NAME : String
deriving Repr

/-- The default configuration values from the source. -/
def defaultConfig : Config :=
  ⟨"input-pdf-files", "output-files"⟩

/-- One record of the S3 event: `record["s3"]["bucket"]["name"]` and the
still percent-encoded `record["s3"]["object"]["key"]`. -/
structure S3Record where
  bucket : String
  rawKey : String
deriving Repr, DecidableEq

/-- The handler's reply: `create_response` builds a dict with the status
code and `json.dumps` of a one-field message object; the JSON envelope is
stdlib serialization, so the model keeps the two payload fields. -/
structure Response where
  statusCode : Nat
  message : String
deriving Repr, DecidableEq

/-- Model of `create_response`. -/
def create_response (status_code : Nat) (message : String) : Response :=
  ⟨status_code, message⟩

/-- The `ContentType` string passed to `put_object`. -/
def xlsxContentType : String :=
  "application/vnd.openxmlformats-officedocument.spreadsheetml.sheet"

/-- Python `s.startswith(pre)`: prefix test on the character sequence. -/
def pyStartsWith (s pre : String) : Bool :=
  pre.data.isPrefixOf s.data

/-- Python `s.endswith(suf)`: suffix test on the character sequence. -/
def pyEndsWith (s suf : String) : Bool :=
  suf.data.reverse.isPrefixOf s.data.reverse

/-- Python `s.lower()`, on the ASCII fragment exercised here. -/
def pyLower (s : String) : String :=
  String.mk (s.data.map Char.toLower)

/-- Value of an ASCII hex digit, if the character is one. -/
def hexDigit? (c : Char) : Option Nat :=
  if '0' ≤ c ∧ c ≤ '9' then some (c.toNat - '0'.toNat)
  else if 'a' ≤ c ∧ c ≤ 'f' then some (c.toNat - 'a'.toNat + 10)
  else if 'A' ≤ c ∧ c ≤ 'F' then some (c.toNat - 'A'.toNat + 10)
  else none

/-- Modelled from the spec: `urllib.parse.unquote` percent-decoding of the
stdlib ("key may be percent-encoded and must be decoded before use").  A
`%` followed by two hex digits becomes the character with that code (the
single-byte fragment; the stdlib's recombination of consecutive escapes
into multi-byte UTF-8 characters is not modelled); an invalid escape is
kept literally, as in the stdlib. -/
def unquoteCharsAux : Nat → List Char → List Char
  | 0, l => l
  | _ + 1, [] => []
  | fuel + 1, '%' :: a :: b :: rest =>
    match hexDigit? a, hexDigit? b with
    | some x, some y => Char.ofNat (16 * x + y) :: unquoteCharsAux fuel rest
    | _, _ => '%' :: unquoteCharsAux fuel (a :: b :: rest)
  | fuel + 1, c :: rest => c :: unquoteCharsAux fuel rest

/-- Percent-decoding of a character list; the fuel argument of the worker
only bounds the recursion (every step consumes at least one character, so
`l.length` always suffices). -/
def unquoteChars (l : List Char) : List Char :=
  unquoteCharsAux l.length l

/-- Percent-decoding lifted to strings. -/
def pyUnquote (s : String) : String :=
  String.mk (unquoteChars s.data)

/-- Python `s.replace("+", " ")`: the first step of `unquote_plus`. -/
def plusToSpace (s : String) : String :=
  String.mk (s.data.map (fun c => if c = '+' then ' ' else c))

/-- Model of `urllib.parse.unquote_plus`, as called at line 62 of the
source: replace every `+` by a space, then percent-decode. -/
def unquote_plus (s : String) : String :=
  pyUnquote (plusToSpace s)

/-- The cell normalization applied at line 157 of the source:
`str(cell) if cell is not None else ""`. -/
def cellToString (cell : RawCell) : String :=
  match cell with
  | some v => v.str
  | none => ""

/-- The per-table cleaning comprehension of `extract_tables_from_pdf`. -/
def cleanTable (table : RawTable) : Table :=
  table.map (fun row => row.map cellToString)

/-- Model of `extract_tables_from_pdf`, given the detector's per-page
output: iterate the pages in order, and within a page iterate the detected
tables in order; a truthy (non-empty) table is cleaned and appended. -/
def extract_tables_from_pdf (pages : List Page) : List Table :=
  pages.foldl
    (fun tables page =>
      page.foldl
        (fun ts table => if table.isEmpty then ts else ts ++ [cleanTable table])
        tables)
    []

/-- The `max_length` accumulation of the auto-adjust loop for column `c`
(0-based): fold over the rows; a cell that exists and is truthy (non-empty
string) contributes its length, everything else is skipped.  Cells are
always strings here, so `len(str(cell.value))` is the string length and the
`TypeError`/`AttributeError` guard can never fire. -/
def maxLenStep (c : Nat) (m : Nat) (row : List String) : Nat :=
  match row.get? c with
  | some v => if v.isEmpty then m else max m v.length
  | none => m

/-- The `max_length` fold of the auto-adjust loop for column `c`
(0-based): fold `maxLenStep` over the rows. -/
def columnMaxLength (grid : List (List String)) (c : Nat) : Nat :=
  grid.foldl (maxLenStep c) 0

/-- Number of columns the worksheet spans: the maximum row length. -/
def numCols (grid : List (List String)) : Nat :=
  grid.foldl (fun m row => max m row.length) 0

/-- The widths set by the auto-adjust loop over `worksheet.columns`.  When
no cell was written, openpyxl's dimension defaults to `A1:A1`, so the loop
sees a single column of empty cells and sets width `min(0 + 2, 50)`;
otherwise columns `1..numCols` each get `min(max_length + 2, 50)`. -/
def sheetWidths (grid : List (List String)) : List Nat :=
  if numCols grid = 0 then [min (0 + 2) 50]
  else (List.range (numCols grid)).map (fun c => min (columnMaxLength grid c + 2) 50)

/-- The sheet created for the table at 1-based position `idx`:
title `Table_<idx>`, every cell written at its (row, column) position, and
the auto-adjusted column widths. -/
def mkSheet (idx : Nat) (table : Table) : Sheet :=
  ⟨"Table_" ++ toString idx, table, sheetWidths table⟩

/-- The sheet an openpyxl `Workbook()` starts with: titled `Sheet`, no
cells written, no width ever set (the auto-adjust loop only runs for
created table sheets). -/
def defaultSheet : Sheet :=
  ⟨"Sheet", [], []⟩

/-- The `for idx, table in enumerate(tables, start=1)` loop of
`create_excel_from_tables`: one sheet per table, 1-based naming. -/
def buildSheets : Nat → List Table → List Sheet
  | _, [] => []
  | idx, t :: ts => mkSheet idx t :: buildSheets (idx + 1) ts

/-- Model of `create_excel_from_tables`: the workbook starts with the
default sheet, which is removed only when `tables` is truthy (non-empty);
then one sheet per table is appended. -/
def create_excel_from_tables (tables : List Table) : List Sheet :=
  (if tables.isEmpty then [defaultSheet] else []) ++ buildSheets 1 tables

/-- Model of `os.path.basename` as used at line 116: the part of the key
after the last `/`. -/
def pyBasename (p : String) : String :=
  String.mk ((p.data.reverse.takeWhile (fun c => c != '/')).reverse)

/-- Model of `os.path.splitext(p)[0]` for a path without separators (it is
applied to a basename): if the string has a `.` and there is some non-dot
character before the last `.`, drop the last `.` and what follows it;
otherwise (no dot, or only leading dots before it) keep the string whole. -/
def pySplitextRoot (p : String) : String :=
  if (p.data.reverse.takeWhile (fun c => c != '.')).length = p.data.reverse.length then p
  else if (p.data.reverse.drop
      ((p.data.reverse.takeWhile (fun c => c != '.')).length + 1)).any
      (fun c => c != '.') then
    String.mk ((p.data.reverse.drop
      ((p.data.reverse.takeWhile (fun c => c != '.')).length + 1)).reverse)
  else p

/-- The output key derivation of `process_pdf` (lines 116-118):
`f"{OUTPUT_FOLDER_NAME}/{splitext(basename(key))[0]}.xlsx"`. -/
def output_key (cfg : Config) (key : String) : String :=
  cfg.OUTPUT_FOLDER_NAME ++ "/" ++ pySplitextRoot (pyBasename key) ++ ".xlsx"

/-- The fixed placeholder message substituted when no tables are found. -/
def noTablesMessage : String :=
  "No tables found in the PDF file"

/-- Model of `process_pdf`: download the object, extract tables, substitute
the placeholder table when none were found, build the workbook, derive the
output key and upload.  The first component is the trace of storage calls
attempted; the second is the exception the conversion raised, if any. -/
def process_pdf (env : Env) (cfg : Config) (bucket key : String) :
    List Effect × Option PyErr :=
  match env.getObject bucket key with
  | .error e => ([Effect.getObject bucket key], some e)
  | .ok pdf_content =>
    match env.openPdf pdf_content with
    | .error e => ([Effect.getObject bucket key], some e)
    | .ok pages =>
      let tables := extract_tables_from_pdf pages
      let tables2 := if tables.isEmpty then [[[noTablesMessage]]] else tables
      let excel_content := create_excel_from_tables tables2
      ([Effect.getObject bucket key,
        Effect.putObject bucket (output_key cfg key) excel_content xlsxContentType],
       env.putOutcome bucket (output_key cfg key))

/-- The two `except` clauses of `lambda_handler`: a `ClientError` is
reported as `AWS Error: <str(e)>`, any other exception as `Error: <str(e)>`. -/
def errMessage : PyErr → String
  | .client m => "AWS Error: " ++ m
  | .other m => "Error: " ++ m

/-- The `for record in records` loop of `lambda_handler`, with the
try/except of the handler embedded as error propagation: decode the key,
skip the record if it is outside the input folder or not a `.pdf`,
otherwise run `process_pdf`; its exception, if any, aborts the loop and
becomes the 500 response.  `acc` is the trace of effects so far. -/
def handlerGo (env : Env) (cfg : Config) : List S3Record → List Effect → Response × List Effect
  | [], acc => (create_response 200 "PDF processing completed successfully", acc)
  | r :: rest, acc =>
    if pyStartsWith (unquote_plus r.rawKey) (cfg.INPUT_FOLDER_NAME ++ "/") = false then
      handlerGo env cfg rest acc
    else if pyEndsWith (pyLower (unquote_plus r.rawKey)) ".pdf" = false then
      handlerGo env cfg rest acc
    else
      match process_pdf env cfg r.bucket (unquote_plus r.rawKey) with
      | (tr, some e) => (create_response 500 (errMessage e), acc ++ tr)
      | (tr, none) => handlerGo env cfg rest (acc ++ tr)

/-- Model of `lambda_handler`: `event.get("Records", [])` yields the record
list (an absent list and an empty list are both the empty list); a falsy
record list returns 400 immediately, otherwise the records are processed in
order and 200 is returned when the loop completes.  The second component is
the trace of storage calls performed. -/
def lambda_handler (env : Env) (cfg : Config) (records : List S3Record) :
    Response × List Effect :=
  if records.isEmpty then (create_response 400 "No records found in event", [])
  else handlerGo env cfg records []

/-- Specification-side description of a column's maximal cell length: the
maximum string length across all cells present in column `c` (0-based). -/
def maxColLenSpec (grid : List (List String)) (c : Nat) : Nat :=
  ((grid.filterMap (fun row => row.get? c)).map String.length).foldl max 0

/-- An environment whose storage always succeeds and whose PDF parses to a
document with no pages (hence no detected tables). -/
def envNoTables : Env :=
  ⟨fun _ _ => .ok [], fun _ => .ok [], fun _ _ => none⟩

/-- An environment whose storage read raises an access-denied
`ClientError`. -/
def envClientFail : Env :=
  ⟨fun _ _ => .error (.client "An error occurred (AccessDenied)"), fun _ => .ok [],
   fun _ _ => none⟩

/-- A concrete detector output: one page reporting an empty table followed
by a one-cell table. -/
def pagesEx : List Page :=
  [[([] : RawTable), [[some (PyVal.pyStr "a")]]]]

/-! ## Basic lemmas about the embedded operations -/

theorem data_mk (l : List Char) : (String.mk l).data = l := rfl

theorem foldl_page_append (page : List RawTable) (ts : List Table) :
    page.foldl (fun ts table => if table.isEmpty then ts else ts ++ [cleanTable table]) ts
      = ts ++ (page.filter (fun t => !t.isEmpty)).map cleanTable := by
  induction page generalizing ts with
  | nil => simp
  | cons t rest ih =>
    rw [List.foldl_cons, List.filter_cons]
    by_cases h : t.isEmpty = true
    · have hb : (!t.isEmpty) = false := by rw [h]; rfl
      rw [if_pos h, hb, if_neg (by simp)]
      exact ih ts
    · have hb : (!t.isEmpty) = true := by
        cases he : t.isEmpty with
        | true => exact absurd he h
        | false => rfl
      rw [if_neg h, hb, if_pos rfl, ih (ts ++ [cleanTable t]), List.append_assoc,
        List.singleton_append, List.map_cons]

theorem foldl_pages_append (pages : List Page) (ts : List Table) :
    pages.foldl
        (fun tables page =>
          page.foldl
            (fun ts table => if table.isEmpty then ts else ts ++ [cleanTable table])
            tables)
        ts
      = ts ++ ((pages.flatten).filter (fun t => !t.isEmpty)).map cleanTable := by
  induction pages generalizing ts with
  | nil => simp
  | cons p rest ih =>
    rw [List.foldl_cons, List.flatten_cons, List.filter_append, List.map_append,
      foldl_page_append, ih, List.append_assoc]

theorem extract_tables_spec (pages : List Page) :
    extract_tables_from_pdf pages
      = ((pages.flatten).filter (fun t => !t.isEmpty)).map cleanTable := by
  rw [extract_tables_from_pdf, foldl_pages_append, List.nil_append]

/-- C5: for every table returned by the per-page detector, the extractor
maps each absent (`None`) cell to the empty string and each non-absent cell
to its string representation, preserving row and column order exactly (the
output is the cell-wise image of the detector's grid); output cells are
plain strings, never an absent marker. -/
theorem claim_C5_cell_normalization :
    (∀ pages : List Page,
        extract_tables_from_pdf pages
          = ((pages.flatten).filter (fun t => !t.isEmpty)).map
              (fun t => t.map (fun row => row.map cellToString)))
    ∧ cellToString none = ""
    ∧ (∀ v : PyVal, cellToString (some v) = v.str) :=
  ⟨fun pages => extract_tables_spec pages, rfl, fun _ => rfl⟩

/-- C9: every table in the extractor's output has at least one row — a
detected table that is empty is omitted — so the extractor's table count is
at most the detector's, and on `pagesEx` (one empty and one non-empty
detected table) it is strictly smaller. -/
theorem claim_C9_no_empty_tables (pages : List Page) :
    ((∀ t ∈ extract_tables_from_pdf pages, t ≠ [])
      ∧ (extract_tables_from_pdf pages).length ≤ (pages.flatten).length)
    ∧ (extract_tables_from_pdf pagesEx).length < (pagesEx.flatten).length := by
  refine ⟨⟨?_, ?_⟩, by decide⟩
  · intro t ht
    rw [extract_tables_spec] at ht
    obtain ⟨t0, ht0, rfl⟩ := List.mem_map.mp ht
    have h0 : (!t0.isEmpty) = true := (List.mem_filter.mp ht0).2
    intro hc
    rw [cleanTable] at hc
    rw [List.map_eq_nil_iff] at hc
    subst hc
    simp at h0
  · rw [extract_tables_spec, List.length_map]
    exact List.length_filter_le _ _

/-- Witness for C9 at the concrete detector output `pagesEx`. -/
theorem claim_C9_no_empty_tables_witness :
    cleanTable [[some (PyVal.pyStr "a")]] ≠ [] :=
  (claim_C9_no_empty_tables pagesEx).1.1 (cleanTable [[some (PyVal.pyStr "a")]]) (by decide)

theorem buildSheets_length (idx : Nat) (ts : List Table) :
    (buildSheets idx ts).length = ts.length := by
  induction ts generalizing idx with
  | nil => rfl
  | cons t rest ih => simp [buildSheets, ih]

theorem buildSheets_get? (idx : Nat) (ts : List Table) (i : Nat) :
    (buildSheets idx ts).get? i = (ts.get? i).map (fun t => mkSheet (idx + i) t) := by
  induction ts generalizing idx i with
  | nil => simp [buildSheets]
  | cons t rest ih =>
    cases i with
    | zero => simp [buildSheets]
    | succ n =>
      rw [buildSheets, List.get?_cons_succ, List.get?_cons_succ, ih (idx + 1) n]
      have : idx + 1 + n = idx + (n + 1) := by omega
      rw [this]

theorem buildSheets_mem {s : Sheet} {idx : Nat} {ts : List Table}
    (h : s ∈ buildSheets idx ts) : ∃ t ∈ ts, ∃ j, s = mkSheet j t := by
  induction ts generalizing idx with
  | nil => simp [buildSheets] at h
  | cons t rest ih =>
    rw [buildSheets, List.mem_cons] at h
    rcases h with h | h
    · exact ⟨t, List.mem_cons_self t rest, idx, h⟩
    · obtain ⟨t', ht', j, hj⟩ := ih h
      exact ⟨t', List.mem_cons_of_mem t ht', j, hj⟩

theorem maxLenStep_none {c : Nat} {row : List String} (m : Nat)
    (h : row.get? c = none) : maxLenStep c m row = m := by
  rw [maxLenStep, h]

theorem maxLenStep_some {c : Nat} {row : List String} {v : String} (m : Nat)
    (h : row.get? c = some v) :
    maxLenStep c m row = if v.isEmpty then m else max m v.length := by
  rw [maxLenStep, h]

theorem foldl_maxlen (grid : List (List String)) (c : Nat) (m : Nat) :
    grid.foldl (maxLenStep c) m
      = ((grid.filterMap (fun row => row.get? c)).map String.length).foldl max m := by
  induction grid generalizing m with
  | nil => rfl
  | cons row rest ih =>
    rw [List.foldl_cons, List.filterMap_cons]
    cases hr : row.get? c with
    | none =>
      rw [maxLenStep_none m hr]
      exact ih m
    | some v =>
      rw [maxLenStep_some m hr]
      by_cases hv : v.isEmpty = true
      · have hv0 : v.length = 0 := by
          have hv' := (String.isEmpty_iff v).mp hv
          rw [hv']; rfl
        rw [List.map_cons, List.foldl_cons, hv0, Nat.max_zero, if_pos hv]
        exact ih m
      · rw [List.map_cons, List.foldl_cons, if_neg hv]
        exact ih (max m v.length)

theorem columnMaxLength_eq (grid : List (List String)) (c : Nat) :
    columnMaxLength grid c = maxColLenSpec grid c :=
  foldl_maxlen grid c 0

theorem foldl_numCols_init_le (g : List (List String)) (m : Nat) :
    m ≤ g.foldl (fun m row => max m row.length) m := by
  induction g generalizing m with
  | nil => exact Nat.le_refl m
  | cons a t ih => exact Nat.le_trans (Nat.le_max_left m a.length) (ih (max m a.length))

theorem foldl_numCols_mem_le (g : List (List String)) (m : Nat) (r : List String)
    (hr : r ∈ g) : r.length ≤ g.foldl (fun m row => max m row.length) m := by
  induction g generalizing m with
  | nil => exact absurd hr (List.not_mem_nil r)
  | cons a t ih =>
    rw [List.foldl_cons]
    rcases List.mem_cons.mp hr with h | h
    · subst h
      exact Nat.le_trans (Nat.le_max_right m r.length) (foldl_numCols_init_le t (max m r.length))
    · exact ih (max m a.length) h

theorem numCols_zero {grid : List (List String)} (h : numCols grid = 0) :
    ∀ row ∈ grid, row.length = 0 := by
  intro row hrow
  have hle := foldl_numCols_mem_le grid 0 row hrow
  rw [numCols] at h
  omega

theorem maxColLenSpec_of_all_nil {grid : List (List String)}
    (h : ∀ row ∈ grid, row.length = 0) (c : Nat) : maxColLenSpec grid c = 0 := by
  rw [maxColLenSpec]
  have hnil : grid.filterMap (fun row => row.get? c) = [] := by
    rw [List.filterMap_eq_nil_iff]
    intro row hrow
    exact List.get?_eq_none.mpr (by rw [h row hrow]; exact Nat.zero_le c)
  rw [hnil]
  rfl

/-- C6 counterexample: the claim's universally quantified form fails at the
empty TableSet: `create_excel_from_tables []` keeps the default `Sheet`
(the removal is guarded by `if tables:`), so the workbook has one sheet
while the TableSet has zero Tables. -/
theorem claim_C6_empty_counterexample :
    (create_excel_from_tables ([] : List Table)).length ≠ ([] : List Table).length := by
  decide

/-- C6 (amended to non-empty TableSets): for every non-empty TableSet the
workbook has one sheet per Table, the sheet at 0-based index `i` is named
`Table_<i+1>` and its cell grid is exactly the source Table (so the cell at
any (r, c) position equals the source cell). -/
theorem claim_C6_workbook_shape (tables : List Table) (h : tables ≠ []) :
    (create_excel_from_tables tables).length = tables.length
    ∧ ∀ i : Nat,
        (create_excel_from_tables tables).get? i
          = (tables.get? i).map
              (fun t => Sheet.mk ("Table_" ++ toString (i + 1)) t (sheetWidths t)) := by
  have hne : tables.isEmpty = false := List.isEmpty_eq_false.mpr h
  have hce : create_excel_from_tables tables = buildSheets 1 tables := by
    rw [create_excel_from_tables, hne, if_neg (by simp), List.nil_append]
  constructor
  · rw [hce]
    exact buildSheets_length 1 tables
  · intro i
    rw [hce, buildSheets_get? 1 tables i]
    simp only [mkSheet, Nat.add_comm 1 i]

/-- Witness for the amended C6 at a concrete one-table TableSet. -/
theorem claim_C6_workbook_shape_witness :
    (create_excel_from_tables [[["x"]]]).length = [[["x"]]].length :=
  (claim_C6_workbook_shape [[["x"]]] (by decide)).1

/-- C8: for every sheet of a produced workbook and every column the
auto-adjust loop sized, the stored width is `min(max_length + 2, 50)`,
where `max_length` is the maximum string length over the cells present in
that column (absent cells contribute zero; every cell is a string, so the
length computation never raises). -/
theorem claim_C8_column_widths (tables : List Table) (s : Sheet)
    (hs : s ∈ create_excel_from_tables tables) (c : Nat) (hc : c < s.widths.length) :
    s.widths.get? c = some (min (maxColLenSpec s.grid c + 2) 50) := by
  rw [create_excel_from_tables, List.mem_append] at hs
  rcases hs with hs | hs
  · by_cases he : tables.isEmpty = true
    · rw [if_pos he, List.mem_singleton] at hs
      subst hs
      simp [defaultSheet] at hc
    · rw [if_neg he] at hs
      exact absurd hs (List.not_mem_nil s)
  · obtain ⟨t, _, j, rfl⟩ := buildSheets_mem hs
    show (sheetWidths t).get? c = some (min (maxColLenSpec t c + 2) 50)
    have hc' : c < (sheetWidths t).length := hc
    rw [sheetWidths] at hc' ⊢
    by_cases h0 : numCols t = 0
    · rw [if_pos h0] at hc' ⊢
      have hc0 : c = 0 := by
        simp only [List.length_singleton] at hc'
        omega
      subst hc0
      rw [maxColLenSpec_of_all_nil (numCols_zero h0)]
      rfl
    · rw [if_neg h0] at hc' ⊢
      rw [List.length_map, List.length_range] at hc'
      rw [List.get?_map, List.get?_range hc', Option.map_some', columnMaxLength_eq]

/-- Witness for C8 at a concrete one-table workbook. -/
theorem claim_C8_column_widths_witness :
    (mkSheet 1 [["ab"]]).widths.get? 0
      = some (min (maxColLenSpec (mkSheet 1 [["ab"]]).grid 0 + 2) 50) :=
  claim_C8_column_widths [[["ab"]]] (mkSheet 1 [["ab"]]) (by decide) 0 (by decide)

theorem process_pdf_eq_error_get {env : Env} {cfg : Config} {bu key : String} {e : PyErr}
    (hg : env.getObject bu key = .error e) :
    process_pdf env cfg bu key = ([Effect.getObject bu key], some e) := by
  unfold process_pdf
  simp only [hg]

theorem process_pdf_eq_error_open {env : Env} {cfg : Config} {bu key : String}
    {content : Bytes} {e : PyErr}
    (hg : env.getObject bu key = .ok content) (ho : env.openPdf content = .error e) :
    process_pdf env cfg bu key = ([Effect.getObject bu key], some e) := by
  unfold process_pdf
  simp only [hg, ho]

theorem process_pdf_eq_ok {env : Env} {cfg : Config} {bu key : String}
    {content : Bytes} {pages : List Page}
    (hg : env.getObject bu key = .ok content) (ho : env.openPdf content = .ok pages) :
    process_pdf env cfg bu key
      = ([Effect.getObject bu key,
          Effect.putObject bu (output_key cfg key)
            (create_excel_from_tables
              (if (extract_tables_from_pdf pages).isEmpty then [[[noTablesMessage]]]
               else extract_tables_from_pdf pages)) xlsxContentType],
         env.putOutcome bu (output_key cfg key)) := by
  unfold process_pdf
  simp only [hg, ho]

theorem process_pdf_get_mem {env : Env} {cfg : Config} {bu key b k : String}
    (h : Effect.getObject b k ∈ (process_pdf env cfg bu key).1) : b = bu ∧ k = key := by
  cases hg : env.getObject bu key with
  | error e =>
    rw [process_pdf_eq_error_get hg] at h
    simp at h
    exact ⟨h.1, h.2⟩
  | ok content =>
    cases ho : env.openPdf content with
    | error e =>
      rw [process_pdf_eq_error_open hg ho] at h
      simp at h
      exact ⟨h.1, h.2⟩
    | ok pages =>
      rw [process_pdf_eq_ok hg ho] at h
      simp at h
      exact ⟨h.1, h.2⟩

theorem process_pdf_trace_head (env : Env) (cfg : Config) (bu key : String) :
    ∃ l, (process_pdf env cfg bu key).1 = Effect.getObject bu key :: l := by
  cases hg : env.getObject bu key with
  | error e => exact ⟨[], by rw [process_pdf_eq_error_get hg]⟩
  | ok content =>
    cases ho : env.openPdf content with
    | error e => exact ⟨[], by rw [process_pdf_eq_error_open hg ho]⟩
    | ok pages => exact ⟨_, by rw [process_pdf_eq_ok hg ho]⟩

theorem handlerGo_cons_skip1 {env : Env} {cfg : Config} {r : S3Record}
    {rest : List S3Record} {acc : List Effect}
    (hb1 : pyStartsWith (unquote_plus r.rawKey) (cfg.INPUT_FOLDER_NAME ++ "/") = false) :
    handlerGo env cfg (r :: rest) acc = handlerGo env cfg rest acc := by
  simp [handlerGo, hb1]

theorem handlerGo_cons_skip2 {env : Env} {cfg : Config} {r : S3Record}
    {rest : List S3Record} {acc : List Effect}
    (hb1 : pyStartsWith (unquote_plus r.rawKey) (cfg.INPUT_FOLDER_NAME ++ "/") = true)
    (hb2 : pyEndsWith (pyLower (unquote_plus r.rawKey)) ".pdf" = false) :
    handlerGo env cfg (r :: rest) acc = handlerGo env cfg rest acc := by
  simp [handlerGo, hb1, hb2]

theorem handlerGo_cons_err {env : Env} {cfg : Config} {r : S3Record}
    {rest : List S3Record} {acc tr : List Effect} {e : PyErr}
    (hb1 : pyStartsWith (unquote_plus r.rawKey) (cfg.INPUT_FOLDER_NAME ++ "/") = true)
    (hb2 : pyEndsWith (pyLower (unquote_plus r.rawKey)) ".pdf" = true)
    (hp : process_pdf env cfg r.bucket (unquote_plus r.rawKey) = (tr, some e)) :
    handlerGo env cfg (r :: rest) acc = (create_response 500 (errMessage e), acc ++ tr) := by
  simp [handlerGo, hb1, hb2, hp]

theorem handlerGo_cons_ok {env : Env} {cfg : Config} {r : S3Record}
    {rest : List S3Record} {acc tr : List Effect}
    (hb1 : pyStartsWith (unquote_plus r.rawKey) (cfg.INPUT_FOLDER_NAME ++ "/") = true)
    (hb2 : pyEndsWith (pyLower (unquote_plus r.rawKey)) ".pdf" = true)
    (hp : process_pdf env cfg r.bucket (unquote_plus r.rawKey) = (tr, none)) :
    handlerGo env cfg (r :: rest) acc = handlerGo env cfg rest (acc ++ tr) := by
  simp [handlerGo, hb1, hb2, hp]

/-- C1: a payload with an absent or empty record list (both read back as
the empty list by `event.get("Records", [])`) yields the 400 response with
message `No records found in event` at once, with an empty effect trace:
no storage read, no extraction, no write. -/
theorem claim_C1_no_records (env : Env) (cfg : Config) :
    lambda_handler env cfg [] = (create_response 400 "No records found in event", [])
    ∧ (create_response 400 "No records found in event").statusCode = 400 :=
  ⟨rfl, rfl⟩

theorem handlerGo_all_skipped (env : Env) (cfg : Config) (recs : List S3Record)
    (acc : List Effect)
    (h : ∀ r ∈ recs,
        ¬ (pyStartsWith (unquote_plus r.rawKey) (cfg.INPUT_FOLDER_NAME ++ "/") = true
           ∧ pyEndsWith (pyLower (unquote_plus r.rawKey)) ".pdf" = true)) :
    handlerGo env cfg recs acc
      = (create_response 200 "PDF processing completed successfully", acc) := by
  induction recs with
  | nil => rfl
  | cons r rest ih =>
    have hr := h r (List.mem_cons_self r rest)
    have hrest := fun x hx => h x (List.mem_cons_of_mem r hx)
    cases hb1 : pyStartsWith (unquote_plus r.rawKey) (cfg.INPUT_FOLDER_NAME ++ "/") with
    | false =>
      rw [handlerGo_cons_skip1 hb1]
      exact ih hrest
    | true =>
      have hb2 : pyEndsWith (pyLower (unquote_plus r.rawKey)) ".pdf" = false := by
        cases hb : pyEndsWith (pyLower (unquote_plus r.rawKey)) ".pdf" with
        | false => rfl
        | true => exact absurd ⟨hb1, hb⟩ hr
      rw [handlerGo_cons_skip2 hb1 hb2]
      exact ih hrest

theorem handlerGo_reads (env : Env) (cfg : Config) (recs : List S3Record) :
    ∀ (acc : List Effect) (b k : String),
      Effect.getObject b k ∈ (handlerGo env cfg recs acc).2 →
      Effect.getObject b k ∈ acc
      ∨ ∃ r ∈ recs, b = r.bucket ∧ k = unquote_plus r.rawKey
          ∧ pyStartsWith (unquote_plus r.rawKey) (cfg.INPUT_FOLDER_NAME ++ "/") = true
          ∧ pyEndsWith (pyLower (unquote_plus r.rawKey)) ".pdf" = true := by
  induction recs with
  | nil =>
    intro acc b k h
    exact Or.inl h
  | cons r rest ih =>
    intro acc b k h
    cases hb1 : pyStartsWith (unquote_plus r.rawKey) (cfg.INPUT_FOLDER_NAME ++ "/") with
    | false =>
      rw [handlerGo_cons_skip1 hb1] at h
      rcases ih acc b k h with hA | ⟨r', hr', h1, h2, h3, h4⟩
      · exact Or.inl hA
      · exact Or.inr ⟨r', List.mem_cons_of_mem r hr', h1, h2, h3, h4⟩
    | true =>
      cases hb2 : pyEndsWith (pyLower (unquote_plus r.rawKey)) ".pdf" with
      | false =>
        rw [handlerGo_cons_skip2 hb1 hb2] at h
        rcases ih acc b k h with hA | ⟨r', hr', h1, h2, h3, h4⟩
        · exact Or.inl hA
        · exact Or.inr ⟨r', List.mem_cons_of_mem r hr', h1, h2, h3, h4⟩
      | true =>
        cases hp : process_pdf env cfg r.bucket (unquote_plus r.rawKey) with
        | mk tr err =>
          cases err with
          | some e =>
            rw [handlerGo_cons_err hb1 hb2 hp] at h
            have h' : Effect.getObject b k ∈ acc ++ tr := h
            rcases List.mem_append.mp h' with hA | hT
            · exact Or.inl hA
            · have hT' : Effect.getObject b k
                  ∈ (process_pdf env cfg r.bucket (unquote_plus r.rawKey)).1 := by
                rw [hp]
                exact hT
              obtain ⟨hbq, hkq⟩ := process_pdf_get_mem hT'
              exact Or.inr ⟨r, List.mem_cons_self r rest, hbq, hkq, hb1, hb2⟩
          | none =>
            rw [handlerGo_cons_ok hb1 hb2 hp] at h
            rcases ih (acc ++ tr) b k h with hA | ⟨r', hr', h1, h2, h3, h4⟩
            · rcases List.mem_append.mp hA with hA2 | hT
              · exact Or.inl hA2
              · have hT' : Effect.getObject b k
                    ∈ (process_pdf env cfg r.bucket (unquote_plus r.rawKey)).1 := by
                  rw [hp]
                  exact hT
                obtain ⟨hbq, hkq⟩ := process_pdf_get_mem hT'
                exact Or.inr ⟨r, List.mem_cons_self r rest, hbq, hkq, hb1, hb2⟩
            · exact Or.inr ⟨r', List.mem_cons_of_mem r hr', h1, h2, h3, h4⟩

/-- C2: a record whose decoded key does not start with the configured
input-folder name followed by `/`, or does not end in `.pdf` after
lowercasing, is skipped: if every record of a non-empty event is skipped
this way the handler answers 200 with an empty effect trace (no storage
read at all), and in any batch every storage read that does occur belongs
to a record whose decoded key passes both filters. -/
theorem claim_C2_filter_skip (env : Env) (cfg : Config) (recs : List S3Record)
    (acc : List Effect) :
    ((recs ≠ []) →
      (∀ r ∈ recs,
          ¬ (pyStartsWith (unquote_plus r.rawKey) (cfg.INPUT_FOLDER_NAME ++ "/") = true
             ∧ pyEndsWith (pyLower (unquote_plus r.rawKey)) ".pdf" = true)) →
      lambda_handler env cfg recs
        = (create_response 200 "PDF processing completed successfully", []))
    ∧ (∀ b k : String,
        Effect.getObject b k ∈ (handlerGo env cfg recs acc).2 →
        Effect.getObject b k ∈ acc
        ∨ ∃ r ∈ recs, b = r.bucket ∧ k = unquote_plus r.rawKey
            ∧ pyStartsWith (unquote_plus r.rawKey) (cfg.INPUT_FOLDER_NAME ++ "/") = true
            ∧ pyEndsWith (pyLower (unquote_plus r.rawKey)) ".pdf" = true) := by
  constructor
  · intro hne hall
    rw [lambda_handler, List.isEmpty_eq_false.mpr hne, if_neg (by simp)]
    exact handlerGo_all_skipped env cfg recs [] hall
  · exact fun b k h => handlerGo_reads env cfg recs acc b k h

/-- Witness for C2: a single record outside the input folder is skipped and
the handler answers 200 with no storage calls. -/
theorem claim_C2_filter_skip_witness :
    lambda_handler envNoTables defaultConfig [⟨"magnifact-pdf", "other-folder/document.pdf"⟩]
      = (create_response 200 "PDF processing completed successfully", []) :=
  (claim_C2_filter_skip envNoTables defaultConfig
      [⟨"magnifact-pdf", "other-folder/document.pdf"⟩] []).1 (by decide) (by decide)

/-- C7: as soon as one qualifying record's conversion raises, the remaining
records are not processed and the handler returns the single 500 response:
`AWS Error: <details>` for a storage-layer `ClientError`, `Error: <details>`
for any other exception (the shape of `errMessage`); the result does not
depend on the records after the failing one, and for a non-empty batch
`lambda_handler` is exactly this loop started with an empty trace. -/
theorem claim_C7_abort_on_error (env : Env) (cfg : Config) (r : S3Record)
    (rest : List S3Record) (acc : List Effect) (e : PyErr)
    (hb1 : pyStartsWith (unquote_plus r.rawKey) (cfg.INPUT_FOLDER_NAME ++ "/") = true)
    (hb2 : pyEndsWith (pyLower (unquote_plus r.rawKey)) ".pdf" = true)
    (hp : (process_pdf env cfg r.bucket (unquote_plus r.rawKey)).2 = some e) :
    handlerGo env cfg (r :: rest) acc
      = (create_response 500 (errMessage e),
         acc ++ (process_pdf env cfg r.bucket (unquote_plus r.rawKey)).1)
    ∧ (∀ m : String, errMessage (PyErr.client m) = "AWS Error: " ++ m)
    ∧ (∀ m : String, errMessage (PyErr.other m) = "Error: " ++ m)
    ∧ lambda_handler env cfg (r :: rest) = handlerGo env cfg (r :: rest) [] := by
  refine ⟨?_, fun m => rfl, fun m => rfl, rfl⟩
  cases hq : process_pdf env cfg r.bucket (unquote_plus r.rawKey) with
  | mk tr err =>
    rw [hq] at hp
    simp only at hp
    subst hp
    rw [handlerGo_cons_err hb1 hb2 hq]

/-- Witness for C7: a storage read that raises an access-denied
`ClientError` aborts the batch with the `AWS Error:` 500 response. -/
theorem claim_C7_abort_on_error_witness :
    handlerGo envClientFail defaultConfig [⟨"b", "input-pdf-files/x.pdf"⟩] []
      = (create_response 500 (errMessage (PyErr.client "An error occurred (AccessDenied)")),
         [] ++ (process_pdf envClientFail defaultConfig "b"
             (unquote_plus "input-pdf-files/x.pdf")).1) :=
  (claim_C7_abort_on_error envClientFail defaultConfig ⟨"b", "input-pdf-files/x.pdf"⟩ [] []
    (PyErr.client "An error occurred (AccessDenied)") (by decide) (by decide) (by decide)).1

theorem take_length_add_append {α : Type} (l₁ l₂ : List α) (n : Nat) :
    (l₁ ++ l₂).take (l₁.length + n) = l₁ ++ l₂.take n := by
  induction l₁ with
  | nil => simp
  | cons a t ih =>
    rw [List.cons_append, List.length_cons]
    have harith : t.length + 1 + n = (t.length + n) + 1 := by omega
    rw [harith, List.take_succ_cons, ih, List.cons_append]

theorem handlerGo_acc (env : Env) (cfg : Config) (recs : List S3Record) (acc : List Effect) :
    handlerGo env cfg recs acc
      = ((handlerGo env cfg recs []).1, acc ++ (handlerGo env cfg recs []).2) := by
  induction recs generalizing acc with
  | nil => simp [handlerGo]
  | cons r rest ih =>
    cases hb1 : pyStartsWith (unquote_plus r.rawKey) (cfg.INPUT_FOLDER_NAME ++ "/") with
    | false =>
      rw [handlerGo_cons_skip1 hb1, handlerGo_cons_skip1 hb1]
      exact ih acc
    | true =>
      cases hb2 : pyEndsWith (pyLower (unquote_plus r.rawKey)) ".pdf" with
      | false =>
        rw [handlerGo_cons_skip2 hb1 hb2, handlerGo_cons_skip2 hb1 hb2]
        exact ih acc
      | true =>
        cases hp : process_pdf env cfg r.bucket (unquote_plus r.rawKey) with
        | mk tr err =>
          cases err with
          | some e =>
            rw [handlerGo_cons_err hb1 hb2 hp, handlerGo_cons_err hb1 hb2 hp]
            simp
          | none =>
            rw [handlerGo_cons_ok hb1 hb2 hp, handlerGo_cons_ok hb1 hb2 hp,
              List.nil_append, ih (acc ++ tr), ih tr]
            simp [List.append_assoc]

/-- C10: the handler decodes each raw key by replacing every literal `+`
with a space and then percent-decoding (`unquote_plus`), and this decoded
key is the one used downstream: for a qualifying record the storage read
recorded in the trace is for exactly `pyUnquote (plusToSpace raw)`; on the
concrete key `input-pdf-files/my+file.pdf` the decoded key is
`input-pdf-files/my file.pdf`. -/
theorem claim_C10_plus_decoding :
    (∀ raw : String, unquote_plus raw = pyUnquote (plusToSpace raw))
    ∧ (∀ raw : String,
        (plusToSpace raw).data = raw.data.map (fun c => if c = '+' then ' ' else c))
    ∧ (∀ (env : Env) (cfg : Config) (b raw : String) (rest : List S3Record)
          (acc : List Effect),
        pyStartsWith (unquote_plus raw) (cfg.INPUT_FOLDER_NAME ++ "/") = true →
        pyEndsWith (pyLower (unquote_plus raw)) ".pdf" = true →
        List.take (acc.length + 1) ((handlerGo env cfg (⟨b, raw⟩ :: rest) acc).2)
          = acc ++ [Effect.getObject b (pyUnquote (plusToSpace raw))])
    ∧ unquote_plus "input-pdf-files/my+file.pdf" = "input-pdf-files/my file.pdf" := by
  refine ⟨fun raw => rfl, fun raw => rfl, ?_, by decide⟩
  intro env cfg b raw rest acc h1 h2
  obtain ⟨l, hl⟩ := process_pdf_trace_head env cfg b (unquote_plus raw)
  cases hp : process_pdf env cfg b (unquote_plus raw) with
  | mk tr err =>
    rw [hp] at hl
    have htr : tr = Effect.getObject b (unquote_plus raw) :: l := hl
    subst htr
    cases err with
    | some e =>
      rw [handlerGo_cons_err h1 h2 hp]
      show List.take (acc.length + 1) (acc ++ (Effect.getObject b (unquote_plus raw) :: l))
        = acc ++ [Effect.getObject b (pyUnquote (plusToSpace raw))]
      rw [take_length_add_append]
      rfl
    | none =>
      rw [handlerGo_cons_ok h1 h2 hp]
      rw [handlerGo_acc env cfg rest
        (acc ++ (Effect.getObject b (unquote_plus raw) :: l))]
      show List.take (acc.length + 1)
          ((acc ++ (Effect.getObject b (unquote_plus raw) :: l))
            ++ (handlerGo env cfg rest []).2)
        = acc ++ [Effect.getObject b (pyUnquote (plusToSpace raw))]
      rw [List.append_assoc, List.cons_append, take_length_add_append]
      rfl

/-- Witness for C10: a qualifying record whose raw key contains `+` leads
to a storage read for the plus-to-space decoded key. -/
theorem claim_C10_plus_decoding_witness :
    List.take (List.length ([] : List Effect) + 1)
        ((handlerGo envNoTables defaultConfig
            [⟨"b", "input-pdf-files/my+file.pdf"⟩] []).2)
      = [] ++ [Effect.getObject "b" (pyUnquote (plusToSpace "input-pdf-files/my+file.pdf"))] :=
  claim_C10_plus_decoding.2.2.1 envNoTables defaultConfig "b" "input-pdf-files/my+file.pdf"
    [] [] (by decide) (by decide)

theorem takeWhile_append_stop {p : Char → Bool} (l₁ : List Char) (c : Char) (l₂ : List Char)
    (h1 : ∀ x ∈ l₁, p x = true) (h2 : p c = false) :
    (l₁ ++ c :: l₂).takeWhile p = l₁ := by
  induction l₁ with
  | nil =>
    rw [List.nil_append, List.takeWhile_cons, h2]
    rfl
  | cons a t ih =>
    rw [List.cons_append, List.takeWhile_cons, h1 a (List.mem_cons_self a t)]
    rw [ih (fun x hx => h1 x (List.mem_cons_of_mem a hx))]
    rfl

theorem drop_len_succ_append {α : Type} (l₁ : List α) (c : α) (l₂ : List α) :
    (l₁ ++ c :: l₂).drop (l₁.length + 1) = l₂ := by
  induction l₁ with
  | nil => simp
  | cons a t ih =>
    rw [List.cons_append, List.length_cons]
    have harith : t.length + 1 + 1 = (t.length + 1) + 1 := rfl
    rw [harith, List.drop_succ_cons, ih]

theorem pyBasename_eq (d rest : List Char) (hrest : ∀ x ∈ rest, x ≠ '/') :
    pyBasename (String.mk (d ++ '/' :: rest)) = String.mk rest := by
  rw [pyBasename, data_mk]
  have hrev : (d ++ '/' :: rest).reverse = rest.reverse ++ '/' :: d.reverse := by
    rw [List.reverse_append, List.reverse_cons, List.append_assoc, List.singleton_append]
  rw [hrev]
  rw [takeWhile_append_stop rest.reverse '/' d.reverse
      (fun x hx => bne_iff_ne.mpr (hrest x (List.mem_reverse.mp hx))) (by decide)]
  rw [List.reverse_reverse]

theorem pySplitextRoot_eq (f e : List Char) (hf : ∃ x ∈ f, x ≠ '.')
    (he : ∀ x ∈ e, x ≠ '.') :
    pySplitextRoot (String.mk (f ++ '.' :: e)) = String.mk f := by
  rw [pySplitextRoot]
  simp only [data_mk]
  have hrev : (f ++ '.' :: e).reverse = e.reverse ++ '.' :: f.reverse := by
    rw [List.reverse_append, List.reverse_cons, List.append_assoc, List.singleton_append]
  rw [hrev]
  rw [takeWhile_append_stop e.reverse '.' f.reverse
      (fun x hx => bne_iff_ne.mpr (he x (List.mem_reverse.mp hx))) (by decide)]
  rw [if_neg (by
    rw [List.length_reverse, List.length_append, List.length_reverse, List.length_cons]
    omega)]
  rw [drop_len_succ_append e.reverse '.' f.reverse]
  rw [if_pos (by
    obtain ⟨x, hx, hxe⟩ := hf
    exact List.any_eq_true.mpr ⟨x, List.mem_reverse.mpr hx, bne_iff_ne.mpr hxe⟩)]
  rw [List.reverse_reverse]

/-- C3: for every key of the shape `<dirs>/<stem>.<ext>` (where the stem
contains some non-dot character and the extension has no dot or slash),
the derived output key is the configured output folder, `/`, the bare stem
with directories and extension stripped, and `.xlsx`; in particular the two
concrete keys of the claim both map to `output-files/report.xlsx`. -/
theorem claim_C3_output_key :
    (∀ (cfg : Config) (d f e : List Char),
        (∀ x ∈ f, x ≠ '/') → (∃ x ∈ f, x ≠ '.') →
        (∀ x ∈ e, x ≠ '/') → (∀ x ∈ e, x ≠ '.') →
        output_key cfg (String.mk (d ++ '/' :: (f ++ '.' :: e)))
          = cfg.OUTPUT_FOLDER_NAME ++ "/" ++ String.mk f ++ ".xlsx")
    ∧ output_key defaultConfig "input-pdf-files/report.pdf" = "output-files/report.xlsx"
    ∧ output_key defaultConfig "input-pdf-files/sub/dir/report.PDF"
        = "output-files/report.xlsx" := by
  refine ⟨?_, by decide, by decide⟩
  intro cfg d f e hf1 hf2 he1 he2
  have hs : ∀ x ∈ f ++ '.' :: e, x ≠ '/' := by
    intro x hx
    rcases List.mem_append.mp hx with hx | hx
    · exact hf1 x hx
    · rcases List.mem_cons.mp hx with hdot | hx
      · subst hdot
        decide
      · exact he1 x hx
  rw [output_key, pyBasename_eq d (f ++ '.' :: e) hs, pySplitextRoot_eq f e hf2 he2]

/-- Witness for C3 at the concrete key `dir/rep.pdf`. -/
theorem claim_C3_output_key_witness :
    output_key defaultConfig
        (String.mk (['d', 'i', 'r'] ++ '/' :: (['r', 'e', 'p'] ++ '.' :: ['p', 'd', 'f'])))
      = defaultConfig.OUTPUT_FOLDER_NAME ++ "/" ++ String.mk ['r', 'e', 'p'] ++ ".xlsx" :=
  claim_C3_output_key.1 defaultConfig ['d', 'i', 'r'] ['r', 'e', 'p'] ['p', 'd', 'f']
    (by decide) (by decide) (by decide) (by decide)

/-- C4: when the extractor finds zero tables, `process_pdf` substitutes the
placeholder TableSet, and the workbook uploaded is exactly one sheet named
`Table_1` holding one row with one cell, the fixed message
`No tables found in the PDF file`. -/
theorem claim_C4_placeholder (env : Env) (cfg : Config) (bucket key : String)
    (content : Bytes) (pages : List Page)
    (hget : env.getObject bucket key = .ok content)
    (hopen : env.openPdf content = .ok pages)
    (hempty : extract_tables_from_pdf pages = []) :
    (process_pdf env cfg bucket key).1
      = [Effect.getObject bucket key,
         Effect.putObject bucket (output_key cfg key)
           (create_excel_from_tables [[[noTablesMessage]]]) xlsxContentType]
    ∧ create_excel_from_tables [[[noTablesMessage]]]
        = [Sheet.mk "Table_1" [[noTablesMessage]] [min (noTablesMessage.length + 2) 50]] := by
  constructor
  · rw [process_pdf_eq_ok hget hopen, hempty]
    rfl
  · decide

/-- Witness for C4 in an environment whose PDF has no pages (hence no
detected tables). -/
theorem claim_C4_placeholder_witness :
    (process_pdf envNoTables defaultConfig "magnifact-pdf" "input-pdf-files/sample.pdf").1
      = [Effect.getObject "magnifact-pdf" "input-pdf-files/sample.pdf",
         Effect.putObject "magnifact-pdf"
           (output_key defaultConfig "input-pdf-files/sample.pdf")
           (create_excel_from_tables [[[noTablesMessage]]]) xlsxContentType] :=
  (claim_C4_placeholder envNoTables defaultConfig "magnifact-pdf" "input-pdf-files/sample.pdf"
    [] [] rfl rfl rfl).1
